import Mathlib

/-!
Verification development for the FDA guidance-document harvesting and
feature-extraction system (packages fda_crawler and data_cleaning).

The Python source is shallowly embedded: database rows become Lean
structures, tables become lists of rows, SQLAlchemy updates become pure
state-transforming functions, exceptions become Except / Option results,
and Python truthiness tests (for example on optional strings and optional
integer limits) are modelled explicitly.  Timestamps are abstracted as
natural numbers supplied by the caller (datetime.utcnow is external).
-/

namespace FdaSpec

/-! ## Python truthiness helpers

Python conditionals such as "test_limit or settings.test_limit",
"a or b" on optional strings, and "if limit" treat None, 0 and the empty
string as falsy.  These helpers embed that behaviour. -/

/-- Truthiness of an optional integer, as in "if limit:" (None and 0 are falsy). -/
def intTruthy : Option Int → Bool
  | none => false
  | some n => n != 0

/-- Truthiness of an optional string (None and the empty string are falsy). -/
def strTruthy : Option String → Bool
  | none => false
  | some s => s != ""

/-- "a or b" on optional integers: returns a when a is truthy, else b. -/
def pyOrInt (a b : Option Int) : Option Int :=
  if intTruthy a then a else b

/-- "a or b" on optional strings: returns a when a is truthy, else b. -/
def pyOrStr (a b : Option String) : Option String :=
  if strTruthy a then a else b

/-! ## fda_crawler.models / fda_crawler.config — data model and settings -/

/-- Embeds fda_crawler.config.Settings (the fields consumed by the session
manager and crawler).  rate_limit is a float in the source, modelled as Rat. -/
structure Settings where
  max_concurrency : Int
  rate_limit : Rat
  test_limit : Option Int

/-- Embeds the CrawlSession ORM row of fda_crawler.models with the column
defaults declared there (status "running", all counters 0). -/
structure CrawlSession where
  status : String
  completed_at : Option Nat
  total_documents : Option Nat
  processed_documents : Nat
  successful_downloads : Nat
  failed_documents : Nat
  max_concurrency : Int
  rate_limit : Rat
  test_limit : Option Int
  last_error : Option String
  error_count : Nat
deriving DecidableEq

/-- Embeds the Document ORM row of fda_crawler.models (column default of
processing_status is "pending"; document_url carries a unique constraint). -/
structure Document where
  id : Nat
  crawl_session_id : Nat
  document_url : String
  title : Option String
  summary : Option String
  issue_date : Option String
  fda_organization : Option String
  topic : Option String
  guidance_status : Option String
  open_for_comment : Option Bool
  comment_closing_date : Option String
  docket_number : Option String
  guidance_type : Option String
  processing_status : String
  processing_error : Option String
  pdf_checksum : Option String
  pdf_size_bytes : Option Nat
deriving DecidableEq

/-! ## fda_crawler.database.CrawlSessionManager -/

/-- Embeds CrawlSessionManager.create_crawl_session: builds a CrawlSession row
from the settings, relying solely on the ORM column defaults for status and
counters.  The source performs no validation of max_concurrency or rate_limit;
"test_limit or settings.test_limit" uses Python truthiness. -/
def create_crawl_session (s : Settings) (test_limit : Option Int) : CrawlSession :=
  { status := "running"
    completed_at := none
    total_documents := none
    processed_documents := 0
    successful_downloads := 0
    failed_documents := 0
    max_concurrency := s.max_concurrency
    rate_limit := s.rate_limit
    test_limit := pyOrInt test_limit s.test_limit
    last_error := none
    error_count := 0 }

/-- Embeds CrawlSessionManager.complete_session: updates status, completed_at,
processed_documents and successful_downloads.  No other column is touched. -/
def complete_session (cs : CrawlSession) (now : Nat)
    (processed_documents successful_downloads : Nat) : CrawlSession :=
  { cs with
    status := "completed"
    completed_at := some now
    processed_documents := processed_documents
    successful_downloads := successful_downloads }

/-- Embeds CrawlSessionManager.fail_session: updates status, last_error and
error_count.  No other column (in particular completed_at) is touched. -/
def fail_session (cs : CrawlSession) (error_message : String) : CrawlSession :=
  { cs with
    status := "failed"
    last_error := some error_message
    error_count := cs.error_count + 1 }

/-- Embeds the completion step of FDACrawler.crawl (crawler.py) and of
FDACrawlerRefactored.crawl: after gathering the per-document boolean results,
the session is completed with processed = number of documents dispatched and
successful = number of True results. -/
def crawl_complete (cs : CrawlSession) (now : Nat) (results : List Bool) : CrawlSession :=
  complete_session cs now results.length (results.count true)

/-- Embeds CrawlSessionManager.get_unprocessed_documents /
the resume branch of FDACrawler.crawl: selects the documents of the current
session whose processing_status is in ["pending", "failed"]. -/
def get_unprocessed_documents (docs : List Document) (session_id : Nat) : List Document :=
  docs.filter (fun d =>
    d.crawl_session_id == session_id &&
    (d.processing_status == "pending" || d.processing_status == "failed"))

/-! ## fda_crawler.crawler_refactored — listing-acquisition strategy chain -/

/-- Embeds the listing dictionaries produced by the acquisition strategies and
by FALLBACK_DOCUMENTS (keys: title, document_url, pdf_url, pdf_size,
issue_date, fda_organization, topic, guidance_status, open_for_comment). -/
structure ListingDoc where
  title : String
  document_url : String
  pdf_url : String
  pdf_size : String
  issue_date : String
  fda_organization : String
  topic : String
  guidance_status : String
  open_for_comment : Bool
deriving DecidableEq

/-- Embeds FDACrawlerRefactored.FALLBACK_DOCUMENTS: the fixed static seed list
of five known documents. -/
def FALLBACK_DOCUMENTS : List ListingDoc :=
  [ { title := "Medical Device User Fee Small Business Qualification and Determination: Guidance for Industry, Food and Drug Administration Staff and Foreign Governments"
      document_url := "https://www.fda.gov/regulatory-information/search-fda-guidance-documents/medical-device-user-fee-small-business-qualification-and-determination"
      pdf_url := "https://www.fda.gov/media/176439/download"
      pdf_size := "418.69 KB"
      issue_date := "07/31/2025"
      fda_organization := "Center for Devices and Radiological Health Center for Biologics Evaluation and Research"
      topic := "User Fees, Administrative / Procedural"
      guidance_status := "Final"
      open_for_comment := false },
    { title := "CVM GFI #294 - Animal Food Ingredient Consultation (AFIC)"
      document_url := "https://www.fda.gov/regulatory-information/search-fda-guidance-documents/cvm-gfi-294-animal-food-ingredient-consultation-afic"
      pdf_url := "https://www.fda.gov/media/180442/download"
      pdf_size := "397.81 KB"
      issue_date := "07/31/2025"
      fda_organization := "Center for Veterinary Medicine"
      topic := "Premarket, Animal Food Additives, Labeling, Safety - Issues, Errors, and Problems"
      guidance_status := "Final"
      open_for_comment := false },
    { title := "E21 Inclusion of Pregnant and Breastfeeding Women in Clinical Trials: Draft Guidance for Industry"
      document_url := "https://www.fda.gov/regulatory-information/search-fda-guidance-documents/e21-inclusion-pregnant-and-breastfeeding-women-clinical-trials"
      pdf_url := "https://www.fda.gov/media/187755/download"
      pdf_size := "429.62 KB"
      issue_date := "07/21/2025"
      fda_organization := "Center for Biologics Evaluation and Research Center for Drug Evaluation and Research Office of the Commissioner,Office of Women\x27s Health"
      topic := "ICH-Efficacy"
      guidance_status := "Draft"
      open_for_comment := true },
    { title := "Formal Meetings Between the FDA and Sponsors or Applicants of BsUFA Products Guidance for Industry"
      document_url := "https://www.fda.gov/regulatory-information/search-fda-guidance-documents/formal-meetings-between-fda-and-sponsors-or-applicants-bsufa-products-guidance-industry"
      pdf_url := "https://www.fda.gov/media/113913/download"
      pdf_size := "358.01 KB"
      issue_date := "07/18/2025"
      fda_organization := "Center for Drug Evaluation and Research"
      topic := "Administrative / Procedural, Biosimilars"
      guidance_status := "Final"
      open_for_comment := false },
    { title := "Development of Cancer Drugs for Use in Novel Combination - Determining the Contribution of the Individual Drugs\x27 Effects: Draft Guidance for Industry"
      document_url := "https://www.fda.gov/regulatory-information/search-fda-guidance-documents/development-cancer-drugs-use-novel-combination-determining-contribution-individual-drugs-effects"
      pdf_url := "https://www.fda.gov/media/187589/download"
      pdf_size := "326.46 KB"
      issue_date := "07/17/2025"
      fda_organization := "Oncology Center of Excellence"
      topic := "Clinical - Medical"
      guidance_status := "Draft"
      open_for_comment := true } ]

/-- Embeds the final fallback step of FDACrawlerRefactored.get_listing_data:
"FALLBACK_DOCUMENTS[:limit] if limit else FALLBACK_DOCUMENTS" — Python
truthiness, so a limit of 0 (like None) yields the untruncated list. -/
def fallback_truncated (limit : Option Int) : List ListingDoc :=
  if intTruthy limit then
    (FALLBACK_DOCUMENTS.take (match limit with
      | some n => n.toNat
      | none => 0))
  else FALLBACK_DOCUMENTS

/-- Embeds the strategy chain of FDACrawlerRefactored.get_listing_data over the
outcomes of the attempted strategies (error = the strategy raised).  Each
strategy falls through on exception or on an empty result; a non-empty result
is returned at once.  With the strategy list exhausted the truncated fallback
list is returned.  The second component counts the strategies attempted. -/
def run_strategy_chain (strategies : List (Except String (List ListingDoc)))
    (limit : Option Int) : List ListingDoc × Nat :=
  match strategies with
  | [] => (fallback_truncated limit, 0)
  | s :: rest =>
    match s with
    | .error _ =>
      let r := run_strategy_chain rest limit
      (r.1, r.2 + 1)
    | .ok docs =>
      if docs.isEmpty then
        let r := run_strategy_chain rest limit
        (r.1, r.2 + 1)
      else (docs, 1)

/-- Embeds FDACrawlerRefactored.get_listing_data: method 1 undetected Chrome,
method 2 Playwright, method 3 direct HTTP, method 4 fallback list.  The three
external methods are given by their observed outcomes. -/
def get_listing_data (chrome playwright http : Except String (List ListingDoc))
    (limit : Option Int) : List ListingDoc × Nat :=
  run_strategy_chain [chrome, playwright, http] limit

/-! ## fda_crawler.database.DocumentRepository -/

/-- Embeds the doc_data dictionary handed to
DocumentRepository.create_or_update_document (the combined_metadata keys plus
document_url); optional values model Python None. -/
structure CandidateDoc where
  document_url : String
  title : Option String
  summary : Option String
  issue_date : Option String
  fda_organization : Option String
  topic : Option String
  guidance_status : Option String
  open_for_comment : Option Bool
  comment_closing_date : Option String
  docket_number : Option String
  guidance_type : Option String
deriving DecidableEq

/-- Embeds DocumentRepository.get_document_by_url: first row matching the url. -/
def get_document_by_url (db : List Document) (url : String) : Option Document :=
  db.find? (fun d => d.document_url == url)

/-- Embeds the merge loop of create_or_update_document:
"for key, value in doc_data.items(): if hasattr(doc, key) and value is not None:
setattr(doc, key, value)" — only non-None candidate values overwrite. -/
def merge_document (d : Document) (c : CandidateDoc) : Document :=
  { d with
    document_url := c.document_url
    title := if c.title.isSome then c.title else d.title
    summary := if c.summary.isSome then c.summary else d.summary
    issue_date := if c.issue_date.isSome then c.issue_date else d.issue_date
    fda_organization :=
      if c.fda_organization.isSome then c.fda_organization else d.fda_organization
    topic := if c.topic.isSome then c.topic else d.topic
    guidance_status :=
      if c.guidance_status.isSome then c.guidance_status else d.guidance_status
    open_for_comment :=
      if c.open_for_comment.isSome then c.open_for_comment else d.open_for_comment
    comment_closing_date :=
      if c.comment_closing_date.isSome then c.comment_closing_date else d.comment_closing_date
    docket_number :=
      if c.docket_number.isSome then c.docket_number else d.docket_number
    guidance_type :=
      if c.guidance_type.isSome then c.guidance_type else d.guidance_type }

/-- Embeds the insert branch of create_or_update_document: a fresh Document row
owned by session_id, metadata from doc_data, ORM column defaults elsewhere
(processing_status "pending"). -/
def new_document (id session_id : Nat) (c : CandidateDoc) : Document :=
  { id := id
    crawl_session_id := session_id
    document_url := c.document_url
    title := c.title
    summary := c.summary
    issue_date := c.issue_date
    fda_organization := c.fda_organization
    topic := c.topic
    guidance_status := c.guidance_status
    open_for_comment := c.open_for_comment
    comment_closing_date := c.comment_closing_date
    docket_number := c.docket_number
    guidance_type := c.guidance_type
    processing_status := "pending"
    processing_error := none
    pdf_checksum := none
    pdf_size_bytes := none }

/-- Embeds DocumentRepository.create_or_update_document with the session
semantics the source actually has.  The method opens an outer session, but
fetches the existing row through self.get_document_by_url, which opens and
closes a session of its own, so the instance it returns is detached from the
outer session.  In the existing-url branch the setattr loop therefore mutates
only that detached instance (merge_document, in memory), the outer
session.commit() has nothing to flush, and session.refresh(doc) raises
InvalidRequestError because doc is not persistent within the outer session:
no merge is ever persisted and the call raises, leaving the table unchanged.
In the no-row branch the fresh Document is added to the outer session and
committed.  Result: (table after the call, returned row or raised error);
new_id stands for the generated primary key of an inserted row. -/
def create_or_update_document (db : List Document) (c : CandidateDoc)
    (session_id new_id : Nat) : List Document × Except String Document :=
  match get_document_by_url db c.document_url with
  | some existing =>
    let _merged := merge_document existing c
    (db, .error "InvalidRequestError: Instance is not persistent within this Session")
  | none =>
    (db ++ [new_document new_id session_id c], .ok (new_document new_id session_id c))

/-! ## fda_crawler.downloader.DocumentProcessor — per-document pipeline -/

/-- Embeds the dictionary returned by PDFDownloader.download_pdf on success. -/
structure DownloadData where
  pdf_content : String
  checksum : String
  size_bytes : Nat
deriving DecidableEq

/-- The external observations the per-document pipeline depends on:
whether a completed attachment row already exists for (document, pdf_url),
and the outcome of download_pdf (none = the download failed). -/
structure PdfEnv where
  existing_attachment_completed : Bool
  download_result : Option DownloadData
deriving DecidableEq

/-- Embeds DocumentProcessor._handle_pdf_download (identical inline copy in
FDACrawler.process_document): pdf_url is
"doc_data.get(\x27pdf_url\x27) or detail_metadata.get(\x27pdf_download_url\x27)";
when it is falsy only a warning is logged and pdf_success stays True; when an
attachment already completed, True; else True iff download_pdf returned data. -/
def handle_pdf_download (pdf_url_listing pdf_url_detail : Option String)
    (env : PdfEnv) : Bool :=
  let pdf_url := pyOrStr pdf_url_listing pdf_url_detail
  if strTruthy pdf_url then
    if env.existing_attachment_completed then true
    else env.download_result.isSome
  else true

/-- Embeds the control flow of DocumentProcessor.process_document_with_db /
FDACrawler.process_document that decides the terminal document state: the
already-completed short-circuit returns True leaving the status "completed";
otherwise the status becomes "completed" when the pdf step reported success and
"failed" otherwise.  Result: (returned boolean, final processing_status). -/
def process_document_outcome (already_completed : Bool)
    (pdf_url_listing pdf_url_detail : Option String) (env : PdfEnv) :
    Bool × String :=
  if already_completed then (true, "completed")
  else
    let pdf_success := handle_pdf_download pdf_url_listing pdf_url_detail env
    (pdf_success, if pdf_success then "completed" else "failed")

/-! ## data_cleaning.models / data_cleaning.processor — features persistence -/

/-- Embeds the DocumentFeatures ORM row of data_cleaning.models.  The schema
declares a primary key on id and declares no unique constraint on
source_document_id. -/
structure DocumentFeaturesRec where
  id : Nat
  source_document_id : Nat
  processing_session_id : Nat
  product_type : String
  confidence_score : Rat
  processing_status : String
deriving DecidableEq

/-- Embeds an INSERT into source.document_features under the constraints the
schema actually declares: IntegrityError exactly on a primary-key collision. -/
def document_features_insert (table : List DocumentFeaturesRec)
    (row : DocumentFeaturesRec) : Except String (List DocumentFeaturesRec) :=
  if table.any (fun r => r.id == row.id) then
    .error "IntegrityError: duplicate primary key"
  else .ok (table ++ [row])

/-- Embeds DataProcessor._save_processed_document: adds the row and commits;
an IntegrityError is caught, rolled back and logged as already processed
(the table is left unchanged and nothing is raised). -/
def save_processed_document (table : List DocumentFeaturesRec)
    (row : DocumentFeaturesRec) : List DocumentFeaturesRec :=
  match document_features_insert table row with
  | .ok t => t
  | .error _ => table

/-! ## data_cleaning.llm_processor — response parsing and validation

The LLM response arrives as JSON text; json.loads yields a Python value,
embedded here as JVal (numbers as Rat).  The pydantic schema
MedicalDeviceFeatures of data_cleaning.models has string fields that default
to None, list-of-string fields that default to [], and a confidence_score
float constrained to [0,1] defaulting to 0.0; pydantic ignores keys outside
the schema and raises ValidationError when any declared field has an invalid
value.  Numeric-string coercion of the float field is not modelled. -/

/-- Embeds a parsed JSON value (the result of json.loads). -/
inductive JVal where
  | jstr (s : String)
  | jnum (q : Rat)
  | jbool (b : Bool)
  | jarr (xs : List JVal)
  | jobj (fields : List (String × JVal))
  | jnull

/-- Dictionary key lookup, as value.get(key) / value[key]. -/
def jlookup (fields : List (String × JVal)) (key : String) : Option JVal :=
  (fields.find? (fun p => p.1 == key)).map (fun p => p.2)

mutual

/-- Embeds Python str(value) applied to a decoded JSON value (used by the
flattening recovery step); the exact rendering is irrelevant downstream, only
that it is a string. -/
def jvalStr : JVal → String
  | .jstr s => "\x27" ++ s ++ "\x27"
  | .jnum q => toString q
  | .jbool b => if b then "True" else "False"
  | .jnull => "None"
  | .jarr xs => "[" ++ jvalStrList xs ++ "]"
  | .jobj fs => "\x7b" ++ jvalStrObj fs ++ "\x7d"

/-- Comma-joined rendering of a JSON array body. -/
def jvalStrList : List JVal → String
  | [] => ""
  | [x] => jvalStr x
  | x :: y :: xs => jvalStr x ++ ", " ++ jvalStrList (y :: xs)

/-- Comma-joined rendering of a JSON object body. -/
def jvalStrObj : List (String × JVal) → String
  | [] => ""
  | [(k, v)] => "\x27" ++ k ++ "\x27: " ++ jvalStr v
  | (k, v) :: y :: xs => "\x27" ++ k ++ "\x27: " ++ jvalStr v ++ ", " ++ jvalStrObj (y :: xs)

end

/-- The three shapes of schema field in MedicalDeviceFeatures. -/
inductive FieldKind where
  | optStr
  | listStr
  | confidence
deriving DecidableEq

/-- The declared fields of the MedicalDeviceFeatures pydantic schema
(data_cleaning.models), in declaration order. -/
def schemaFields : List (String × FieldKind) :=
  [("device_classification", .optStr),
   ("product_code", .optStr),
   ("device_type", .optStr),
   ("device_category", .optStr),
   ("intended_use", .optStr),
   ("regulatory_pathway", .optStr),
   ("premarket_requirements", .listStr),
   ("standards_referenced", .listStr),
   ("testing_requirements", .listStr),
   ("performance_criteria", .listStr),
   ("quality_system_requirements", .listStr),
   ("labeling_requirements", .listStr),
   ("post_market_requirements", .listStr),
   ("submission_requirements", .listStr),
   ("timeline_information", .optStr),
   ("fee_information", .optStr),
   ("risk_classification", .optStr),
   ("contraindications", .listStr),
   ("confidence_score", .confidence),
   ("extraction_notes", .optStr)]

/-- Validation of an Optional[str] field value (missing or None or str). -/
def optStrOk : Option JVal → Bool
  | none => true
  | some .jnull => true
  | some (.jstr _) => true
  | some _ => false

/-- Validation of a List[str] field value (missing, or a list of strings). -/
def listStrOk : Option JVal → Bool
  | none => true
  | some (.jarr xs) =>
    xs.all (fun v => match v with | .jstr _ => true | _ => false)
  | some _ => false

/-- Validation of the confidence_score field (missing, or a number in [0,1]). -/
def confidenceOk : Option JVal → Bool
  | none => true
  | some (.jnum q) => decide (0 ≤ q ∧ q ≤ 1)
  | some _ => false

/-- Per-field validation dispatch. -/
def fieldOk : FieldKind → Option JVal → Bool
  | .optStr, v => optStrOk v
  | .listStr, v => listStrOk v
  | .confidence, v => confidenceOk v

/-- Extraction of an Optional[str] field from a validated map. -/
def asOptStr : Option JVal → Option String
  | some (.jstr s) => some s
  | _ => none

/-- Extraction of a List[str] field from a validated map. -/
def asListStr : Option JVal → List String
  | some (.jarr xs) =>
    xs.filterMap (fun v => match v with | .jstr s => some s | _ => none)
  | _ => []

/-- Extraction of the confidence_score field from a validated map. -/
def asConfidence : Option JVal → Rat
  | some (.jnum q) => q
  | _ => 0

/-- Embeds the validated MedicalDeviceFeatures pydantic model. -/
structure MedicalDeviceFeatures where
  device_classification : Option String
  product_code : Option String
  device_type : Option String
  device_category : Option String
  intended_use : Option String
  regulatory_pathway : Option String
  premarket_requirements : List String
  standards_referenced : List String
  testing_requirements : List String
  performance_criteria : List String
  quality_system_requirements : List String
  labeling_requirements : List String
  post_market_requirements : List String
  submission_requirements : List String
  timeline_information : Option String
  fee_information : Option String
  risk_classification : Option String
  contraindications : List String
  confidence_score : Rat
  extraction_notes : Option String
deriving DecidableEq

/-- Builds the model record from a map whose fields all validated. -/
def build_features (fields : List (String × JVal)) : MedicalDeviceFeatures :=
  { device_classification := asOptStr (jlookup fields "device_classification")
    product_code := asOptStr (jlookup fields "product_code")
    device_type := asOptStr (jlookup fields "device_type")
    device_category := asOptStr (jlookup fields "device_category")
    intended_use := asOptStr (jlookup fields "intended_use")
    regulatory_pathway := asOptStr (jlookup fields "regulatory_pathway")
    premarket_requirements := asListStr (jlookup fields "premarket_requirements")
    standards_referenced := asListStr (jlookup fields "standards_referenced")
    testing_requirements := asListStr (jlookup fields "testing_requirements")
    performance_criteria := asListStr (jlookup fields "performance_criteria")
    quality_system_requirements :=
      asListStr (jlookup fields "quality_system_requirements")
    labeling_requirements := asListStr (jlookup fields "labeling_requirements")
    post_market_requirements := asListStr (jlookup fields "post_market_requirements")
    submission_requirements := asListStr (jlookup fields "submission_requirements")
    timeline_information := asOptStr (jlookup fields "timeline_information")
    fee_information := asOptStr (jlookup fields "fee_information")
    risk_classification := asOptStr (jlookup fields "risk_classification")
    contraindications := asListStr (jlookup fields "contraindications")
    confidence_score := asConfidence (jlookup fields "confidence_score")
    extraction_notes := asOptStr (jlookup fields "extraction_notes") }

/-- Embeds MedicalDeviceFeatures(**data): the model when every declared field
validates against the supplied map, none on ValidationError. -/
def validate_features (fields : List (String × JVal)) : Option MedicalDeviceFeatures :=
  if schemaFields.all (fun p => fieldOk p.2 (jlookup fields p.1)) then
    some (build_features fields)
  else none

/-- The MedicalDeviceFeatures model built from an empty map (all defaults). -/
def empty_features : MedicalDeviceFeatures := build_features []

/-- Embeds "[v for v in value.values() if isinstance(v, str)]" followed by
taking the first element. -/
def firstStringValue (fields : List (String × JVal)) : Option String :=
  (fields.filterMap (fun p => match p.2 with | .jstr s => some s | _ => none)).head?

/-- Embeds the nested-value flattening of LLMProcessor._parse_llm_response:
for a dict value prefer the classification sub-key, then value, then text,
then the first string-typed sub-value, else str(value); any other value is
kept as is. -/
def flatten_value (v : JVal) : JVal :=
  match v with
  | .jobj fields =>
    match jlookup fields "classification" with
    | some x => x
    | none =>
      match jlookup fields "value" with
      | some x => x
      | none =>
        match jlookup fields "text" with
        | some x => x
        | none =>
          match firstStringValue fields with
          | some s => .jstr s
          | none => .jstr (jvalStr v)
  | _ => v

/-- Embeds the flattening loop over all keys of the features map. -/
def flatten_features (fields : List (String × JVal)) : List (String × JVal) :=
  fields.map (fun p => (p.1, flatten_value p.2))

/-- Weight contributed by a string-valued feature:
"if value and value.strip(): score += weight". -/
def truthyStrScore (v : Option String) (w : Rat) : Rat :=
  match v with
  | some s => if s != "" && s.trim != "" then w else 0
  | none => 0

/-- Weight contributed by a list-valued feature:
"if value and len(value) > 0: score += weight". -/
def listScore (v : List String) (w : Rat) : Rat :=
  if v.length > 0 then w else 0

/-- Embeds LLMProcessor._calculate_confidence_score: fixed weights for key,
list and other fields, final score clamped to [0,1]. -/
def calculate_confidence_score (f : MedicalDeviceFeatures) : Rat :=
  let score :=
    truthyStrScore f.device_classification 0.2 +
    truthyStrScore f.device_type 0.15 +
    truthyStrScore f.regulatory_pathway 0.15 +
    truthyStrScore f.intended_use 0.1 +
    listScore f.standards_referenced 0.1 +
    listScore f.testing_requirements 0.1 +
    listScore f.submission_requirements 0.1 +
    truthyStrScore f.product_code 0.05 +
    truthyStrScore f.device_category 0.05
  min 1 (max 0 score)

/-- Embeds the ExtractionResponse pydantic model of data_cleaning.models. -/
structure ExtractionResponse where
  features : MedicalDeviceFeatures
  processing_notes : Option String
  success : Bool
deriving DecidableEq

/-- Embeds the valid_fields loop of the partial-extraction branch:
"for field_name in __fields__: if field_name in features_data:
valid_fields[field_name] = features_data[field_name]" — the raw value is
copied verbatim (the inner try/except around plain dict indexing filters
nothing). -/
def partial_valid_fields (features_data : List (String × JVal)) :
    List (String × JVal) :=
  schemaFields.filterMap (fun p =>
    (jlookup features_data p.1).map (fun v => (p.1, v)))

/-- Embeds the body of LLMProcessor._parse_llm_response applied to a features
dict: flatten, validate; on success fill in a computed confidence when the
score is 0.0; on ValidationError run the partial-extraction branch (valid
fields copied raw, re-validated as a whole, confidence forced to 0.3), and on
its failure return the success=False response. -/
def parse_features_map (features_data : List (String × JVal))
    (notes : Option String) : ExtractionResponse :=
  match validate_features (flatten_features features_data) with
  | some f =>
    let f' := if f.confidence_score == 0 then
        { f with confidence_score := calculate_confidence_score f }
      else f
    { features := f', processing_notes := notes, success := true }
  | none =>
    match validate_features (partial_valid_fields features_data) with
    | some f =>
      { features := { f with
          confidence_score := 0.3,
          extraction_notes := some "Partial extraction due to validation errors" }
        processing_notes := some "Partial extraction completed with validation errors"
        success := true }
    | none =>
      { features := { empty_features with
          extraction_notes := some "Validation failed" }
        processing_notes := some "Response validation failed"
        success := false }

/-- Embeds LLMProcessor._parse_llm_response: none models a JSON decode
failure; a features sub-object is unwrapped when present; a response that is
not a dict (or whose features value is not a dict) ends in the generic
error response of the final except branch. -/
def parse_llm_response (response : Option JVal) : ExtractionResponse :=
  match response with
  | none =>
    { features := { empty_features with
        extraction_notes := some "JSON parsing failed" }
      processing_notes := some "Failed to parse LLM response as JSON"
      success := false }
  | some (.jobj fields) =>
    match jlookup fields "features" with
    | some (.jobj inner) =>
      parse_features_map inner (asOptStr (jlookup fields "processing_notes"))
    | some _ =>
      { features := { empty_features with
          extraction_notes := some "Parsing error" }
        processing_notes := some "Unexpected parsing error"
        success := false }
    | none => parse_features_map fields none
  | some _ =>
    { features := { empty_features with
        extraction_notes := some "Parsing error" }
      processing_notes := some "Unexpected parsing error"
      success := false }

/-! ## data_cleaning.llm_processor.test_api_connection

Strings exchanged with the model are embedded as lists of Unicode code
points; Python str.lower is embedded on the ASCII letters (non-ASCII
characters are untouched, which is conservative here: no Unicode character
lowercases to an uppercase ASCII letter, and the proof below only needs that
the lowered text contains no uppercase ASCII letter). -/

/-- Lowercasing of one code point as in str.lower restricted to ASCII. -/
def pyLowerChar (c : Nat) : Nat :=
  if 65 ≤ c ∧ c ≤ 90 then c + 32 else c

/-- Embeds result.lower(). -/
def pyLower (s : List Nat) : List Nat := s.map pyLowerChar

/-- Code points of a Lean string literal, used to write the probe phrase. -/
def strCodes (s : String) : List Nat := s.data.map Char.toNat

/-- Embeds Python "needle in haystack" on strings (substring containment). -/
def pyContains (needle hay : List Nat) : Bool := decide (List.IsInfix needle hay)

/-- Embeds LLMProcessor.test_api_connection: none models an exception from the
API call (caught, returning False); otherwise the check is
"API test successful" in result.lower(). -/
def test_api_connection (api_result : Option (List Nat)) : Bool :=
  match api_result with
  | none => false
  | some result => pyContains (strCodes "API test successful") (pyLower result)

/-- Embeds the llm_api entry of DataProcessor.test_components: the value of
test_api_connection, with an exception again mapped to False. -/
def test_components_llm_api (api_result : Option (List Nat)) : Bool :=
  test_api_connection api_result

/-! ## Sample rows used by closed witness / counterexample statements -/

/-- Settings row with the defaults of fda_crawler.config.Settings. -/
def defaultSettings : Settings :=
  { max_concurrency := 4, rate_limit := 1, test_limit := none }

/-- A document row stuck in "processing" state (as left behind by an
interrupted run that had already written the pre-download status). -/
def stuckProcessingDoc : Document :=
  { id := 1
    crawl_session_id := 1
    document_url := "https://www.fda.gov/doc-1"
    title := some "Doc 1"
    summary := none
    issue_date := none
    fda_organization := none
    topic := none
    guidance_status := none
    open_for_comment := none
    comment_closing_date := none
    docket_number := none
    guidance_type := none
    processing_status := "processing"
    processing_error := none
    pdf_checksum := none
    pdf_size_bytes := none }

/-- A sample candidate document as produced by a listing strategy. -/
def candSample : CandidateDoc :=
  { document_url := "https://www.fda.gov/doc-2"
    title := some "Doc 2"
    summary := none
    issue_date := some "07/31/2025"
    fda_organization := none
    topic := none
    guidance_status := some "Final"
    open_for_comment := some false
    comment_closing_date := none
    docket_number := none
    guidance_type := none }

/-- A stored row holding the url of candSample but no title yet, as left by
an earlier sighting with less metadata. -/
def preexistingDoc : Document :=
  new_document 1 1 { candSample with title := none }

/-- A sample listing row for closed chain statements. -/
def sampleListing : ListingDoc :=
  { title := "Sample"
    document_url := "https://www.fda.gov/doc-3"
    pdf_url := "https://www.fda.gov/media/1/download"
    pdf_size := "1 KB"
    issue_date := "01/01/2025"
    fda_organization := "CDRH"
    topic := "Premarket"
    guidance_status := "Final"
    open_for_comment := false }

/-- A stored features row for document 7. -/
def featuresRow1 : DocumentFeaturesRec :=
  { id := 1
    source_document_id := 7
    processing_session_id := 1
    product_type := "medical devices"
    confidence_score := 0.9
    processing_status := "completed" }

/-- A second features row for the same document 7 (fresh primary key). -/
def featuresRow2 : DocumentFeaturesRec :=
  { id := 2
    source_document_id := 7
    processing_session_id := 2
    product_type := "medical devices"
    confidence_score := 0.3
    processing_status := "completed" }

/-- The LLM response used to exercise the validation-failure path: a known
schema field carries a list where a string is required, another field is
valid. -/
def c6_response : JVal :=
  .jobj [("device_classification", .jarr [.jstr "Class II"]),
         ("device_type", .jstr "Monitor")]

/-! ## Helper lemmas -/

/-- The True and False outcome counts of a result list partition its length. -/
theorem count_true_add_count_false (l : List Bool) :
    l.count true + l.count false = l.length := by
  induction l with
  | nil => rfl
  | cons b t ih => cases b <;> simp [List.count_cons] <;> omega

/-- A single ASCII-lowered code point is never the letter A (65). -/
theorem pyLowerChar_ne_65 (c : Nat) : pyLowerChar c ≠ 65 := by
  unfold pyLowerChar
  split <;> omega

/-! ## Claim theorems -/

/-- Claim C8 (corrected): create_crawl_session allocates the session in
"running" status with every progress counter at zero, for every settings
value — the source performs no ConfigError validation at all. -/
theorem C8_create_unconditional (s : Settings) (tl : Option Int) :
    (create_crawl_session s tl).status = "running" ∧
    (create_crawl_session s tl).processed_documents = 0 ∧
    (create_crawl_session s tl).successful_downloads = 0 ∧
    (create_crawl_session s tl).failed_documents = 0 ∧
    (create_crawl_session s tl).error_count = 0 ∧
    (create_crawl_session s tl).completed_at = none :=
  ⟨rfl, rfl, rfl, rfl, rfl, rfl⟩

/-- Claim C8 counterexample: with concurrency_limit = 0 and rate_limit = 0
(both non-positive) session creation still succeeds and yields a running
session, where the claim requires a ConfigError failure. -/
theorem C8_counterexample :
    (create_crawl_session { max_concurrency := 0, rate_limit := 0, test_limit := none }
        none).status = "running" ∧
    (create_crawl_session { max_concurrency := 0, rate_limit := 0, test_limit := none }
        none).max_concurrency ≤ 0 ∧
    (create_crawl_session { max_concurrency := 0, rate_limit := 0, test_limit := none }
        none).rate_limit ≤ 0 :=
  ⟨rfl, by decide, by decide⟩

/-- Claim C9 (corrected): complete_session sets status "completed" and
completed_at; fail_session sets status "failed", increments error_count and
records last_error, but leaves completed_at unchanged (it does not set it). -/
theorem C9_terminal_transitions (cs : CrawlSession) (now p su : Nat) (err : String) :
    (complete_session cs now p su).status = "completed" ∧
    (complete_session cs now p su).completed_at = some now ∧
    (fail_session cs err).status = "failed" ∧
    (fail_session cs err).error_count = cs.error_count + 1 ∧
    (fail_session cs err).last_error = some err ∧
    (fail_session cs err).completed_at = cs.completed_at :=
  ⟨rfl, rfl, rfl, rfl, rfl, rfl⟩

/-- Claim C9 counterexample: failing a fresh session leaves completed_at
unset, where the claim requires fail(error) to set completed_at. -/
theorem C9_counterexample :
    (fail_session (create_crawl_session defaultSettings none) "boom").status = "failed" ∧
    (fail_session (create_crawl_session defaultSettings none) "boom").completed_at = none :=
  ⟨rfl, rfl⟩

/-- Claim C2 (corrected): a session completed by the crawl loop has
processed_documents = successful_downloads + (number of False outcomes), but
failed_documents is never written and stays 0, so the claimed equation
processed = successful + failed_documents holds iff no document failed. -/
theorem C2_completed_counters (s : Settings) (tl : Option Int) (now : Nat)
    (results : List Bool) :
    (crawl_complete (create_crawl_session s tl) now results).status = "completed" ∧
    (crawl_complete (create_crawl_session s tl) now results).processed_documents =
      (crawl_complete (create_crawl_session s tl) now results).successful_downloads +
        results.count false ∧
    (crawl_complete (create_crawl_session s tl) now results).failed_documents = 0 ∧
    ((crawl_complete (create_crawl_session s tl) now results).processed_documents =
        (crawl_complete (create_crawl_session s tl) now results).successful_downloads +
          (crawl_complete (create_crawl_session s tl) now results).failed_documents ↔
      results.count false = 0) := by
  have h := count_true_add_count_false results
  refine ⟨rfl, ?_, rfl, ?_⟩ <;>
    simp only [crawl_complete, complete_session, create_crawl_session] <;>
      omega

/-- Claim C2 counterexample: a completed run with one failed document has
processed_documents = 1 but successful_downloads + failed_documents = 0,
violating the claimed invariant. -/
theorem C2_counterexample :
    (crawl_complete (create_crawl_session defaultSettings none) 0 [false]).status =
      "completed" ∧
    (crawl_complete (create_crawl_session defaultSettings none) 0 [false]).processed_documents ≠
      (crawl_complete (create_crawl_session defaultSettings none) 0 [false]).successful_downloads +
        (crawl_complete (create_crawl_session defaultSettings none) 0 [false]).failed_documents :=
  ⟨rfl, by decide⟩

/-- Claim C3 (corrected): the resume query selects exactly the session
documents whose processing_status is "pending" or "failed"; documents in
"processing" state are not selected for reprocessing. -/
theorem C3_resume_selection (docs : List Document) (sid : Nat) (d : Document) :
    d ∈ get_unprocessed_documents docs sid ↔
      d ∈ docs ∧ d.crawl_session_id = sid ∧
        (d.processing_status = "pending" ∨ d.processing_status = "failed") := by
  simp [get_unprocessed_documents, List.mem_filter]

/-- Claim C3 counterexample: a session document left in "processing" state is
not completed, yet the resume selection returns it in no list — it is skipped,
where the claim requires every non-completed document to be selected. -/
theorem C3_counterexample :
    stuckProcessingDoc.crawl_session_id = 1 ∧
    stuckProcessingDoc.processing_status ≠ "completed" ∧
    get_unprocessed_documents [stuckProcessingDoc] 1 = [] :=
  ⟨rfl, by decide, rfl⟩

/-- Claim C1 (corrected): the document reaches terminal status "completed"
iff the pdf step did not explicitly fail — that is, iff no attachment URL was
discoverable, or a completed attachment already existed, or the download
succeeded; it reaches "failed" exactly when a URL was discoverable, nothing
was already downloaded, and the download failed.  In particular an
undiscoverable attachment URL yields "completed", not "failed". -/
theorem C1_terminal_status (a b : Option String) (env : PdfEnv) :
    process_document_outcome true a b env = (true, "completed") ∧
    ((process_document_outcome false a b env).2 = "completed" ↔
      strTruthy (pyOrStr a b) = false ∨ env.existing_attachment_completed = true ∨
        env.download_result.isSome = true) ∧
    ((process_document_outcome false a b env).2 = "failed" ↔
      strTruthy (pyOrStr a b) = true ∧ env.existing_attachment_completed = false ∧
        env.download_result = none) := by
  obtain ⟨ea, dr⟩ := env
  refine ⟨rfl, ?_, ?_⟩ <;>
    cases ea <;> rcases dr with _ | d <;>
      cases h : strTruthy (pyOrStr a b) <;>
        simp [process_document_outcome, handle_pdf_download, h]

/-- Claim C1 counterexample: with no attachment URL discoverable from either
the listing data or the detail page, the processor reports success and the
terminal processing_status is "completed", where the claim requires "failed". -/
theorem C1_counterexample :
    process_document_outcome false none none
      { existing_attachment_completed := false, download_result := none } =
      (true, "completed") :=
  rfl

/-- Claim C7 (corrected): the save handler appends a fresh features row
whenever no declared constraint is violated — a primary-key collision is the
only IntegrityError, and only that case is the already-processed no-op.  A
second row for an already-covered source_document_id therefore inserts. -/
theorem C7_save_behavior (table : List DocumentFeaturesRec) (row : DocumentFeaturesRec) :
    (table.any (fun r => r.id == row.id) = false →
      save_processed_document table row = table ++ [row]) ∧
    (table.any (fun r => r.id == row.id) = true →
      save_processed_document table row = table) := by
  constructor <;> intro h <;>
    simp [save_processed_document, document_features_insert, h]

/-- Claim C7 witness: saving into an empty table appends the row. -/
theorem C7_witness : save_processed_document [] featuresRow1 = [featuresRow1] :=
  (C7_save_behavior [] featuresRow1).1 rfl

/-- Claim C7 counterexample: persisting a second features row (fresh primary
key) for document 7, which already has one, leaves two rows for that
document — not an idempotent no-op, and more than one row per document. -/
theorem C7_counterexample :
    List.countP (fun r => r.source_document_id == 7)
      (save_processed_document [featuresRow1] featuresRow2) = 2 := by
  decide

/-- Claim C10 (confirmed): test_api_connection lowercases the response and
then searches for the mixed-case literal "API test successful", so it returns
False for every response text (and for a raised exception), and the
test_components llm_api entry is that same False. -/
theorem C10_api_test_always_false (api_result : Option (List Nat)) :
    test_api_connection api_result = false ∧
    test_components_llm_api api_result = false := by
  have main : test_api_connection api_result = false := by
    rcases api_result with _ | result
    · rfl
    · unfold test_api_connection pyContains
      rw [decide_eq_false_iff_not]
      intro hinf
      have h65 : (65 : Nat) ∈ strCodes "API test successful" := by decide
      have hmem : (65 : Nat) ∈ pyLower result := hinf.subset h65
      rw [pyLower, List.mem_map] at hmem
      obtain ⟨c, _, hc⟩ := hmem
      exact pyLowerChar_ne_65 c hc
  exact ⟨main, main⟩

/-- Claim C4 (corrected): the chain tries strategies in order — a raising or
empty strategy falls through, the first non-empty result is returned at once
with no later strategy attempted, and exhaustion yields the static seed list;
the truncation applies for a positive given limit, while a limit of 0 is
falsy in Python and yields the untruncated list.  The chain is a total
function, so it never raises. -/
theorem C4_chain_fallback :
    (∀ (docs : List ListingDoc) (rest : List (Except String (List ListingDoc)))
        (limit : Option Int), docs ≠ [] →
      run_strategy_chain (Except.ok docs :: rest) limit = (docs, 1)) ∧
    (∀ (e : String) (rest : List (Except String (List ListingDoc)))
        (limit : Option Int),
      run_strategy_chain (Except.error e :: rest) limit =
        ((run_strategy_chain rest limit).1, (run_strategy_chain rest limit).2 + 1)) ∧
    (∀ (rest : List (Except String (List ListingDoc))) (limit : Option Int),
      run_strategy_chain (Except.ok [] :: rest) limit =
        ((run_strategy_chain rest limit).1, (run_strategy_chain rest limit).2 + 1)) ∧
    (∀ limit : Option Int,
      run_strategy_chain [] limit = (fallback_truncated limit, 0)) ∧
    (∀ (c p h : Except String (List ListingDoc)) (limit : Option Int),
      get_listing_data c p h limit = run_strategy_chain [c, p, h] limit) ∧
    (∀ n : Int, 0 < n →
      fallback_truncated (some n) = FALLBACK_DOCUMENTS.take n.toNat) ∧
    fallback_truncated none = FALLBACK_DOCUMENTS := by
  refine ⟨?_, fun e rest limit => rfl, fun rest limit => rfl,
    fun limit => rfl, fun c p h limit => rfl, ?_, rfl⟩
  · intro docs rest limit h
    cases docs with
    | nil => exact absurd rfl h
    | cons x xs => rfl
  · intro n hn
    simp [fallback_truncated, intTruthy, hn.ne']

/-- Claim C4 witness: a first strategy returning a non-empty list wins with a
single attempt, and a positive limit of 2 truncates the seed list. -/
theorem C4_witness :
    run_strategy_chain [Except.ok [sampleListing]] none = ([sampleListing], 1) ∧
    fallback_truncated (some 2) = FALLBACK_DOCUMENTS.take ((2 : Int).toNat) :=
  ⟨C4_chain_fallback.1 [sampleListing] [] none (by simp),
   C4_chain_fallback.2.2.2.2.2.1 2 (by decide)⟩

/-- Claim C4 counterexample: with every strategy raising and the given limit
0, the chain returns the whole five-element seed list rather than the list
truncated to the given limit. -/
theorem C4_counterexample :
    (get_listing_data (Except.error "blocked") (Except.error "blocked")
        (Except.error "blocked") (some 0)).1 ≠
      FALLBACK_DOCUMENTS.take ((0 : Int).toNat) := by
  intro h
  have h5 : (get_listing_data (Except.error "blocked") (Except.error "blocked")
      (Except.error "blocked") (some 0)).1.length = 5 := rfl
  rw [h] at h5
  simp at h5

/-- Claim C5 (code bug): upserting a candidate whose url already has a row is
meant to merge the non-None candidate fields into it, but the existing row is
loaded through a second, already-closed session and is detached, so only the
detached copy is mutated (its title does become "Doc 2" in memory), the outer
commit persists nothing and session.refresh raises InvalidRequestError: the
call leaves the stored row unchanged (title still None) and raises.  The
no-row branch does insert a fresh session-owned row with status "pending". -/
theorem C5_detached_merge_never_persisted :
    create_or_update_document [preexistingDoc] candSample 1 2 =
      ([preexistingDoc],
        Except.error "InvalidRequestError: Instance is not persistent within this Session") ∧
    (merge_document preexistingDoc candSample).title = some "Doc 2" ∧
    preexistingDoc.title = none ∧
    preexistingDoc.document_url = candSample.document_url ∧
    create_or_update_document [] candSample 1 2 =
      ([new_document 2 1 candSample], Except.ok (new_document 2 1 candSample)) ∧
    (new_document 2 1 candSample).crawl_session_id = 1 ∧
    (new_document 2 1 candSample).processing_status = "pending" :=
  ⟨rfl, rfl, rfl, rfl, rfl, rfl, rfl⟩

/-- A value accepted by any field validator is left unchanged by the
flattening step (flattening only rewrites dict values, which no field
accepts). -/
theorem flatten_value_of_fieldOk {kind : FieldKind} {v : JVal}
    (h : fieldOk kind (some v) = true) : flatten_value v = v := by
  cases kind <;> cases v <;>
    simp_all [fieldOk, optStrOk, listStrOk, confidenceOk, flatten_value]

/-- Key lookup in the flattened map is the flattening of the raw lookup. -/
theorem jlookup_flatten (fd : List (String × JVal)) (k : String) :
    jlookup (flatten_features fd) k = (jlookup fd k).map flatten_value := by
  induction fd with
  | nil => rfl
  | cons p rest ih =>
    obtain ⟨n, v⟩ := p
    by_cases h : n = k
    · simp [flatten_features, jlookup, List.find?_cons, h]
    · simpa [flatten_features, jlookup, List.find?_cons, h] using ih

/-- Lookup in a cons of the association list splits on the head key. -/
theorem jlookup_cons (n : String) (v : JVal) (t : List (String × JVal)) (k : String) :
    jlookup ((n, v) :: t) k = if n == k then some v else jlookup t k := by
  rw [jlookup, List.find?_cons]
  by_cases h : n == k <;> simp [h, jlookup]

/-- Unfolding of the valid_fields construction over a head schema entry. -/
theorem construct_cons (n : String) (kn : FieldKind)
    (rest : List (String × FieldKind)) (fd : List (String × JVal)) :
    ((n, kn) :: rest).filterMap (fun p => (jlookup fd p.1).map (fun v => (p.1, v))) =
      (match jlookup fd n with
        | none => rest.filterMap (fun p => (jlookup fd p.1).map (fun v => (p.1, v)))
        | some v =>
          (n, v) :: rest.filterMap (fun p => (jlookup fd p.1).map (fun v => (p.1, v)))) := by
  rw [List.filterMap_cons]
  cases hv : jlookup fd n <;> simp [hv]

/-- Lookup of a key outside the schema-name list in the valid_fields map
rebuilt from it is empty. -/
theorem jlookup_construct_none (ks : List (String × FieldKind))
    (fd : List (String × JVal)) (k : String) (h : k ∉ ks.map Prod.fst) :
    jlookup (ks.filterMap (fun p => (jlookup fd p.1).map (fun v => (p.1, v)))) k =
      none := by
  induction ks with
  | nil => rfl
  | cons p rest ih =>
    obtain ⟨n, kn⟩ := p
    simp only [List.map_cons, List.mem_cons] at h
    push_neg at h
    rw [construct_cons]
    cases hv : jlookup fd n with
    | none => exact ih h.2
    | some v =>
      rw [jlookup_cons]
      have hne : (n == k) = false := by
        simp [Ne.symm h.1]
      rw [hne]
      exact ih h.2

/-- Lookup of a declared schema key in the valid_fields map equals the raw
lookup, given distinct schema names. -/
theorem jlookup_construct (ks : List (String × FieldKind))
    (fd : List (String × JVal)) (k : String) (kind : FieldKind)
    (hk : (k, kind) ∈ ks) (hnodup : (ks.map Prod.fst).Nodup) :
    jlookup (ks.filterMap (fun p => (jlookup fd p.1).map (fun v => (p.1, v)))) k =
      jlookup fd k := by
  induction ks with
  | nil => cases hk
  | cons p rest ih =>
    obtain ⟨n, kn⟩ := p
    simp only [List.map_cons, List.nodup_cons] at hnodup
    rw [construct_cons]
    rcases List.mem_cons.mp hk with hhead | htail
    · have hkn : k = n := congrArg Prod.fst hhead
      subst hkn
      cases hv : jlookup fd k with
      | none => exact jlookup_construct_none rest fd k hnodup.1
      | some v => simp [jlookup_cons]
    · have hne : k ≠ n := by
        intro hkn
        apply hnodup.1
        rw [← hkn]
        exact List.mem_map_of_mem Prod.fst htail
      cases hv : jlookup fd n with
      | none => exact ih htail hnodup.2
      | some v =>
        rw [jlookup_cons]
        have hne2 : (n == k) = false := by
          simp [Ne.symm hne]
        rw [hne2]
        exact ih htail hnodup.2

/-- The partial-extraction branch is dead code: whenever validation of the
flattened map fails, re-validating the raw schema fields copied by the
valid_fields loop fails as well, so _parse_llm_response returns the
success=False response — never the degraded success=True / 0.3 record. -/
theorem partial_never_succeeds (fd : List (String × JVal)) (notes : Option String)
    (hfail : validate_features (flatten_features fd) = none) :
    (parse_features_map fd notes).success = false := by
  unfold parse_features_map
  rw [hfail]
  cases hp : validate_features (partial_valid_fields fd) with
  | none => rfl
  | some f =>
    exfalso
    have hall : schemaFields.all
        (fun p => fieldOk p.2 (jlookup (partial_valid_fields fd) p.1)) = true := by
      unfold validate_features at hp
      split at hp
      · assumption
      · cases hp
    have hall2 : schemaFields.all
        (fun p => fieldOk p.2 (jlookup (flatten_features fd) p.1)) = true := by
      rw [List.all_eq_true] at hall ⊢
      intro p hp'
      have h1 := hall p hp'
      rw [partial_valid_fields,
        jlookup_construct schemaFields fd p.1 p.2 hp' (by decide)] at h1
      rw [jlookup_flatten]
      cases hv : jlookup fd p.1 with
      | none => simpa [hv] using h1
      | some v =>
        rw [hv] at h1
        simpa [flatten_value_of_fieldOk h1] using h1
    unfold validate_features at hfail
    rw [if_pos hall2] at hfail
    cases hfail

/-- Claim C6 (code bug): on the response missing a valid string for
device_classification (a list is supplied) while device_type is valid, the
claim and the partial-extraction branch intend success with
confidence_score = 0.3 and the valid field kept; the code instead copies the
invalid raw value back into valid_fields, fails validation again, and returns
a success=False response with confidence 0 and no fields populated. -/
theorem C6_partial_extraction_eval :
    (parse_llm_response (some c6_response)).success = false ∧
    (parse_llm_response (some c6_response)).features.confidence_score = 0 ∧
    (parse_llm_response (some c6_response)).features.device_type = none :=
  ⟨rfl, rfl, rfl⟩

end FdaSpec
